import Mathlib

/-!
Shallow embedding of `src/script.js` (the `DozeStudioAnimation` class of the
Interactive-Hero-Canvas-Animation repository), together with theorems settling
the behavioural claims about it.

Modelling conventions:
* JavaScript numbers are modelled by `ℚ` (all arithmetic the program performs
  on dimensions and frame indices is exact on rationals).
* The DOM canvas is a record of its pixel dimensions plus an abstract
  `content` field describing what is currently painted on it; assigning
  `canvas.width`/`canvas.height` resets the bitmap (content becomes blank),
  `clearRect` blanks it, and `drawImage` paints a fully loaded image (a
  pending or failed `Image` paints nothing).
* `window.innerWidth`/`window.innerHeight` are passed explicitly as a
  `Viewport` argument to every operation that reads them.
* A JavaScript array indexed out of range yields `undefined`; lookups are
  modelled with `Option`.  A fractional or negative index also yields
  `undefined`.
-/

namespace DozeStudio

/-- Constant `CONFIG.FRAME_PADDING` of script.js. -/
def FRAME_PADDING : ℕ := 4

/-- Constant `CONFIG.FRAME_MAX_INDEX` of script.js. -/
def FRAME_MAX_INDEX : ℕ := 1345

/-- Load state of one `Image` object created by `preloadImages`: it starts
pending and is moved exactly once to loaded (by `onload`) or failed
(by `onerror`). -/
inductive LoadStatus where
  | pending
  | loaded
  | failed
deriving DecidableEq

/-- One entry of the `this.images` array: an `Image` object with its `src`
URL, its load state and its intrinsic dimensions (0 until loaded). -/
structure FrameImage where
  url : String
  status : LoadStatus
  width : ℚ
  height : ℚ
deriving DecidableEq

/-- What `drawImage` painted: the source URL and the destination rectangle. -/
structure DrawnImage where
  url : String
  offsetX : ℚ
  offsetY : ℚ
  width : ℚ
  height : ℚ
deriving DecidableEq

/-- The canvas element: pixel dimensions plus the painted content
(`none` = blank). -/
structure Canvas where
  width : ℚ
  height : ℚ
  content : Option DrawnImage
deriving DecidableEq

/-- The window dimensions read by `resizeCanvas`. -/
structure Viewport where
  innerWidth : ℚ
  innerHeight : ℚ
deriving DecidableEq

/-- The `this.frames` record of the class. -/
structure Frames where
  currentIndex : ℚ
  maxIndex : ℕ
deriving DecidableEq

/-- The mutable state of a `DozeStudioAnimation` instance. -/
structure AnimState where
  canvas : Canvas
  frames : Frames
  images : List FrameImage
  imagesLoaded : ℕ
  isInitialized : Bool
deriving DecidableEq

/-- JavaScript `String.prototype.padStart`: pad on the left with `padChar`
up to `targetLength`; a string already at least that long is returned
unchanged. -/
def jsPadStart (s : String) (targetLength : ℕ) (padChar : Char) : String :=
  if targetLength ≤ s.length then s
  else String.mk (List.replicate (targetLength - s.length) padChar) ++ s

/-- Method `generateImageUrl` (script.js lines 141-144):
`./images/frame_${index.toString().padStart(4, '0')}.jpeg`. -/
def generateImageUrl (index : ℕ) : String :=
  "./images/frame_" ++ jsPadStart (Nat.repr index) FRAME_PADDING '0' ++ ".jpeg"

/-- Method `preloadImages` (script.js lines 123-134): for `i = 1` to `maxIndex`
create an `Image` with `src = generateImageUrl i` and push it onto
`this.images`.  Slot `k` (0-based) therefore holds the image for URL index
`k+1`; every image starts pending with intrinsic dimensions 0. -/
def preloadImages (maxIndex : ℕ) : List FrameImage :=
  (List.range maxIndex).map fun k =>
    { url := generateImageUrl (k + 1), status := .pending, width := 0, height := 0 }

/-- JavaScript array indexing `arr[index]` for a rational index: an element
is returned only for an integral index within bounds; anything else is
`undefined` (`none`). -/
def jsIndexLookup (l : List FrameImage) (index : ℚ) : Option FrameImage :=
  if index.den = 1 ∧ 0 ≤ index.num then l.get? index.num.toNat else none

/-- Method `isValidFrameIndex` (script.js lines 206-208):
`index >= 0 && index <= this.frames.maxIndex`. -/
def isValidFrameIndex (s : AnimState) (index : ℚ) : Bool :=
  decide (0 ≤ index) && decide (index ≤ (s.frames.maxIndex : ℚ))

/-- Method `resizeCanvas` (script.js lines 213-216): sets the canvas dimensions to
the current window dimensions; assigning a canvas dimension resets its
bitmap to blank. -/
def resizeCanvas (s : AnimState) (win : Viewport) : AnimState :=
  { s with canvas := { width := win.innerWidth, height := win.innerHeight, content := none } }

/-- The geometry computed by `renderImage` (script.js lines 225-236). -/
structure RenderGeometry where
  scale : ℚ
  newWidth : ℚ
  newHeight : ℚ
  offsetX : ℚ
  offsetY : ℚ
deriving DecidableEq

/-- The scaling/centering arithmetic of `renderImage` (script.js lines
225-236): cover scale `max(canvasWidth/imgWidth, canvasHeight/imgHeight)`,
drawn size `img × scale`, centering offsets `(canvas − drawn)/2`. -/
def computeGeometry (canvasWidth canvasHeight imgWidth imgHeight : ℚ) : RenderGeometry :=
  let scaleX := canvasWidth / imgWidth
  let scaleY := canvasHeight / imgHeight
  let scale := max scaleX scaleY
  let newWidth := imgWidth * scale
  let newHeight := imgHeight * scale
  let offsetX := (canvasWidth - newWidth) / 2
  let offsetY := (canvasHeight - newHeight) / 2
  ⟨scale, newWidth, newHeight, offsetX, offsetY⟩

/-- Method `renderImage` (script.js lines 222-243): reads the canvas dimensions,
computes the cover geometry, clears the whole canvas (`clearRect`) and draws
the image at the computed rectangle.  `drawImage` paints only a fully loaded
image; a still-pending or failed (broken) image paints nothing. -/
def renderImage (s : AnimState) (img : FrameImage) : AnimState :=
  let g := computeGeometry s.canvas.width s.canvas.height img.width img.height
  let cleared : Canvas := { s.canvas with content := none }
  let painted : Canvas :=
    if img.status = .loaded then
      { cleared with content := some ⟨img.url, g.offsetX, g.offsetY, g.newWidth, g.newHeight⟩ }
    else cleared
  { s with canvas := painted }

/-- Method `loadImage` (script.js lines 185-199): return unless `isValidFrameIndex`;
return (with a warning) if `this.images[index]` is `undefined`; otherwise
`resizeCanvas()`, `renderImage(img)`, and set
`this.frames.currentIndex = index`. -/
def loadImage (s : AnimState) (index : ℚ) (win : Viewport) : AnimState :=
  if isValidFrameIndex s index then
    match jsIndexLookup s.images index with
    | none => s
    | some img =>
      let s2 := renderImage (resizeCanvas s win) img
      { s2 with frames := { s2.frames with currentIndex := index } }
  else s

/-- Method `handleResize` (script.js lines 363-367): if `this.isInitialized`, call
`loadImage(Math.floor(this.frames.currentIndex))`; otherwise do nothing. -/
def handleResize (s : AnimState) (win : Viewport) : AnimState :=
  if s.isInitialized then loadImage s (⌊s.frames.currentIndex⌋ : ℚ) win else s

/-- Method `loadFrame` (script.js lines 385-389): public manual override; calls
`loadImage(index)` only when `this.isInitialized`. -/
def loadFrame (s : AnimState) (index : ℚ) (win : Viewport) : AnimState :=
  if s.isInitialized then loadImage s index win else s

/-- Method `onAllImagesLoaded` (script.js lines 175-179): set
`this.isInitialized = true` and render the current frame
(`loadImage(this.frames.currentIndex)`); starting the GSAP timeline is an
external side effect with no state of its own here. -/
def onAllImagesLoaded (s : AnimState) (win : Viewport) : AnimState :=
  loadImage { s with isInitialized := true } s.frames.currentIndex win

/-- The `this.frames` record as built by the constructor (script.js lines
65-68): `currentIndex = 0`, `maxIndex = CONFIG.FRAME_MAX_INDEX`. -/
def initialFrames : Frames :=
  { currentIndex := 0, maxIndex := FRAME_MAX_INDEX }

/-- The outcome with which one image slot resolves. -/
inductive LoadOutcome where
  | success
  | failure
deriving DecidableEq

/-- One slot-resolution callback on the `imagesLoaded` counter:
`handleImageLoad` (script.js lines 149-155) on success and
`handleImageLoadError` (script.js lines 162-170) on failure both increment
`this.imagesLoaded` and fire `onAllImagesLoaded` exactly when the new count
equals `this.frames.maxIndex`.  Returns the new count and whether the
aggregate notification fired on this callback. -/
def slotResolved (maxIndex : ℕ) (count : ℕ) (outcome : LoadOutcome) : ℕ × Bool :=
  match outcome with
  | .success => (count + 1, decide (count + 1 = maxIndex))
  | .failure => (count + 1, decide (count + 1 = maxIndex))

/-- Total number of times the aggregate notification fires while processing
a sequence of slot-resolution callbacks, starting from counter value
`count`. -/
def countFirings (maxIndex : ℕ) : ℕ → List LoadOutcome → ℕ
  | _, [] => 0
  | count, o :: rest =>
    let r := slotResolved maxIndex count o
    (if r.2 then 1 else 0) + countFirings maxIndex r.1 rest

end DozeStudio

namespace DozeStudio

/-- The state built by the constructor and `init` (script.js lines 62-89):
canvas sized to the window by `initializeCanvas`, cursor at 0,
`maxIndex = 1345`, the image array freshly populated by `preloadImages`
(all pending), no load resolved yet, `isInitialized = false`. -/
def initialState (win : Viewport) : AnimState :=
  { canvas := { width := win.innerWidth, height := win.innerHeight, content := none }
    frames := initialFrames
    images := preloadImages FRAME_MAX_INDEX
    imagesLoaded := 0
    isInitialized := false }

/-- The image array after every one of the 1345 loads succeeded with
intrinsic dimensions `w × h`: each slot keeps its URL and becomes loaded. -/
def resolvedImages (w h : ℚ) : List FrameImage :=
  (preloadImages FRAME_MAX_INDEX).map fun im => { im with status := .loaded, width := w, height := h }

/-- A fully concrete image used by witnesses and counterexamples. -/
def sampleImage (st : LoadStatus) (w h : ℚ) : FrameImage :=
  { url := generateImageUrl 1, status := st, width := w, height := h }

/-- A concrete mid-session state used by witnesses and counterexamples: the
image array has the 1345-slot shape produced by `preloadImages`, slot 0 has
the given contents, the remaining slots are loaded, the cursor sits at frame
5, and a frame is currently painted on the canvas. -/
def sampleState (slot0 : FrameImage) : AnimState :=
  { canvas := { width := 800, height := 600
                content := some ⟨generateImageUrl 6, 0, 0, 800, 600⟩ }
    frames := { currentIndex := 5, maxIndex := FRAME_MAX_INDEX }
    images := slot0 :: List.replicate 1344 (sampleImage .loaded 400 300)
    imagesLoaded := FRAME_MAX_INDEX
    isInitialized := true }

/-- A fully resolved state: every slot loaded with dimensions 400 × 300,
cursor at 0, ready for the initial render. -/
def resolvedState : AnimState :=
  { canvas := { width := 800, height := 600, content := none }
    frames := { currentIndex := 0, maxIndex := FRAME_MAX_INDEX }
    images := resolvedImages 400 300
    imagesLoaded := FRAME_MAX_INDEX
    isInitialized := true }

end DozeStudio

namespace DozeStudio

/-- Shape of the state produced by `loadImage` when both guards pass: the
canvas is resized to the viewport, the cover geometry for the viewport and
the image is painted (for a loaded image; a pending/failed image leaves the
cleared canvas blank), and the cursor moves to `index`. -/
lemma loadImage_eq_of_guards (s : AnimState) (index : ℚ) (win : Viewport)
    (img : FrameImage) (hv : isValidFrameIndex s index = true)
    (hl : jsIndexLookup s.images index = some img) :
    loadImage s index win =
      { s with
        canvas :=
          { width := win.innerWidth, height := win.innerHeight
            content :=
              if img.status = .loaded then
                some ⟨img.url,
                  (computeGeometry win.innerWidth win.innerHeight img.width img.height).offsetX,
                  (computeGeometry win.innerWidth win.innerHeight img.width img.height).offsetY,
                  (computeGeometry win.innerWidth win.innerHeight img.width img.height).newWidth,
                  (computeGeometry win.innerWidth win.innerHeight img.width img.height).newHeight⟩
              else none }
        frames := { s.frames with currentIndex := index } } := by
  unfold loadImage
  rw [hv, if_pos rfl, hl]
  unfold renderImage resizeCanvas
  by_cases hst : img.status = .loaded <;> simp [hst]

/-- Indices that fail `isValidFrameIndex` make `loadImage` a no-op. -/
lemma loadImage_eq_of_invalid (s : AnimState) (index : ℚ) (win : Viewport)
    (hv : isValidFrameIndex s index = false) :
    loadImage s index win = s := by
  unfold loadImage
  rw [hv]
  simp

/-- Indices whose array lookup is `undefined` make `loadImage` a no-op. -/
lemma loadImage_eq_of_lookup_none (s : AnimState) (index : ℚ) (win : Viewport)
    (hl : jsIndexLookup s.images index = none) :
    loadImage s index win = s := by
  unfold loadImage
  rw [hl]
  by_cases hv : isValidFrameIndex s index <;> simp [hv]

/-- A fuel-indexed divide-and-conquer bounded forall over `[lo, lo+len)`,
used to let the kernel check a predicate on every frame number without deep
recursion. -/
def boolBall (p : ℕ → Bool) : ℕ → ℕ → ℕ → Bool
  | 0, _, len => len == 0
  | fuel + 1, lo, len =>
    if len = 0 then true
    else if len = 1 then p lo
    else boolBall p fuel lo (len / 2) && boolBall p fuel (lo + len / 2) (len - len / 2)

/-- Soundness of `boolBall`: a successful check establishes the predicate on
every point of the interval. -/
lemma boolBall_sound (p : ℕ → Bool) :
    ∀ fuel lo len, boolBall p fuel lo len = true → ∀ k, lo ≤ k → k < lo + len → p k = true := by
  intro fuel
  induction fuel with
  | zero =>
    intro lo len hball k hlo hk
    simp [boolBall] at hball
    omega
  | succ fuel ih =>
    intro lo len hball k hlo hk
    unfold boolBall at hball
    by_cases h0 : len = 0
    · omega
    · by_cases h1 : len = 1
      · simp [h0, h1] at hball
        have hkl : k = lo := by omega
        subst hkl
        exact hball
      · simp [h0, h1, Bool.and_eq_true] at hball
        by_cases hlt : k < lo + len / 2
        · exact ih lo (len / 2) hball.1 k hlo hlt
        · exact ih (lo + len / 2) (len - len / 2) hball.2 k (by omega) (by omega)

/-- Pointwise check behind the off-by-one claim: among the 1345 generated
URLs, `frame_1345.jpeg` is generated from (0-based) position `k` only when
`k = 1344`. -/
def urlOnlyAtLast (k : ℕ) : Bool :=
  !(generateImageUrl (k + 1) == generateImageUrl 1345) || (k == 1344)

/-- Kernel-checked: `urlOnlyAtLast` holds on all of `[0, 1345)`. -/
lemma urlOnlyAtLast_all : boolBall urlOnlyAtLast 20 0 1345 = true := by rfl

/-- Among the in-range frame positions, only position 1344 generates the URL
of frame 1345. -/
lemma generateImageUrl_eq_last (k : ℕ) (hk : k < 1345)
    (h : generateImageUrl (k + 1) = generateImageUrl 1345) : k = 1344 := by
  have hp := boolBall_sound urlOnlyAtLast 20 0 1345 urlOnlyAtLast_all k (Nat.zero_le k) (by omega)
  unfold urlOnlyAtLast at hp
  simp [h] at hp
  exact hp

/-- The padded index of any frame number below `10^4` has exactly 4
characters. -/
lemma jsPadStart_length (n : ℕ) (h : n < 10 ^ 4) :
    (jsPadStart (Nat.repr n) 4 '0').length = 4 := by
  have hle : (Nat.repr n).length ≤ 4 := Nat.repr_length n 4 (by norm_num) h
  unfold jsPadStart
  by_cases hc : 4 ≤ (Nat.repr n).length
  · simp [hc]
    omega
  · simp [hc]
    omega

/-- Indexing with a natural-number index is plain list lookup. -/
lemma jsIndexLookup_natCast (l : List FrameImage) (k : ℕ) :
    jsIndexLookup l (k : ℚ) = l.get? k := by
  unfold jsIndexLookup
  rw [if_pos]
  · simp
  · simp

/-- Closed form for the number of aggregate notifications: processing a
callback sequence starting from counter value `c` fires exactly once iff the
counter passes through `m`, and never more than once. -/
lemma countFirings_eq (m : ℕ) :
    ∀ (l : List LoadOutcome) (c : ℕ),
      countFirings m c l = if c < m ∧ m ≤ c + l.length then 1 else 0 := by
  intro l
  induction l with
  | nil =>
    intro c
    simp only [countFirings, List.length_nil, Nat.add_zero]
    split_ifs with h
    · omega
    · rfl
  | cons o rest ih =>
    intro c
    cases o <;>
      · simp only [countFirings, slotResolved, ih (c + 1), List.length_cons]
        by_cases hfire : c + 1 = m <;> simp [hfire] <;> split_ifs <;> omega

/-- Helper: `loadImage` never changes `maxIndex`, and it either leaves the cursor
alone or moves it to an index that passed the range check. -/
lemma loadImage_frames (s : AnimState) (index : ℚ) (win : Viewport) :
    (loadImage s index win).frames.maxIndex = s.frames.maxIndex ∧
    ((loadImage s index win).frames.currentIndex = s.frames.currentIndex ∨
      ((loadImage s index win).frames.currentIndex = index ∧
        0 ≤ index ∧ index ≤ (s.frames.maxIndex : ℚ))) := by
  unfold loadImage
  by_cases hv : isValidFrameIndex s index
  · cases hl : jsIndexLookup s.images index with
    | none => simp [hv, hl]
    | some img =>
      have hb : 0 ≤ index ∧ index ≤ (s.frames.maxIndex : ℚ) := by
        unfold isValidFrameIndex at hv
        simp at hv
        exact hv
      simp [hv, hl, renderImage, resizeCanvas]
      exact Or.inr hb
  · simp [hv]

end DozeStudio

namespace DozeStudio

/-- C2: each success callback (`handleImageLoad`) and each error callback
(`handleImageLoadError`) increments the resolved count by exactly 1; the
notification flag is raised exactly on the callback that brings the count to
`maxIndex = 1345`; over any sequence of exactly 1345 callbacks starting from
count 0 — whatever the mix of successes and failures — `onAllImagesLoaded`
fires exactly once, and it never fires during a shorter sequence. -/
theorem claim_C2_all_resolved_fires_once :
    (∀ (c : ℕ) (o : LoadOutcome), (slotResolved FRAME_MAX_INDEX c o).1 = c + 1) ∧
    (∀ (c : ℕ) (o : LoadOutcome),
      (slotResolved FRAME_MAX_INDEX c o).2 = true ↔ c + 1 = FRAME_MAX_INDEX) ∧
    (∀ l : List LoadOutcome, l.length = FRAME_MAX_INDEX →
      countFirings FRAME_MAX_INDEX 0 l = 1) ∧
    (∀ l : List LoadOutcome, l.length < FRAME_MAX_INDEX →
      countFirings FRAME_MAX_INDEX 0 l = 0) := by
  refine ⟨?_, ?_, ?_, ?_⟩
  · intro c o
    cases o <;> rfl
  · intro c o
    cases o <;> simp [slotResolved]
  · intro l hl
    rw [countFirings_eq, hl]
    rw [if_pos]
    exact ⟨by norm_num [FRAME_MAX_INDEX], by omega⟩
  · intro l hl
    rw [countFirings_eq]
    rw [if_neg]
    omega

/-- C2 witness: with 1000 successes followed by 345 failures the aggregate
notification fires exactly once, and the 1345th callback is the one that
raises the flag. -/
theorem claim_C2_witness :
    countFirings FRAME_MAX_INDEX 0
      (List.replicate 1000 LoadOutcome.success ++ List.replicate 345 LoadOutcome.failure) = 1 ∧
    (slotResolved FRAME_MAX_INDEX 1344 LoadOutcome.failure).2 = true :=
  ⟨claim_C2_all_resolved_fires_once.2.2.1 _
    (by rw [List.length_append, List.length_replicate, List.length_replicate]; rfl),
   (claim_C2_all_resolved_fires_once.2.1 1344 LoadOutcome.failure).2 (by norm_num [FRAME_MAX_INDEX])⟩

/-- C3: a successful render computes cover scale
`max (W/w) (H/h)`, drawn size `(w·scale, h·scale)` and centering offsets
`((W−w·scale)/2, (H−h·scale)/2)` from the surface `(W,H)` and image `(w,h)`;
in particular a 1000×500 surface with a 400×400 image gives scale 5/2, drawn
size 1000×1000 and offsets (0, −250), and an 800×600 surface with a 400×300
image gives scale 2, drawn size 800×600 and offsets (0, 0). -/
theorem claim_C3_cover_geometry :
    (∀ (s : AnimState) (index : ℚ) (win : Viewport) (img : FrameImage),
      isValidFrameIndex s index = true →
      jsIndexLookup s.images index = some img →
      img.status = LoadStatus.loaded →
      0 < img.width → 0 < img.height →
      (loadImage s index win).canvas.content =
        some { url := img.url
               offsetX := (win.innerWidth -
                 img.width * max (win.innerWidth / img.width) (win.innerHeight / img.height)) / 2
               offsetY := (win.innerHeight -
                 img.height * max (win.innerWidth / img.width) (win.innerHeight / img.height)) / 2
               width := img.width * max (win.innerWidth / img.width) (win.innerHeight / img.height)
               height :=
                 img.height * max (win.innerWidth / img.width) (win.innerHeight / img.height) }) ∧
    computeGeometry 1000 500 400 400 = ⟨5/2, 1000, 1000, 0, -250⟩ ∧
    computeGeometry 800 600 400 300 = ⟨2, 800, 600, 0, 0⟩ := by
  refine ⟨?_, ?_, ?_⟩
  · intro s index win img hv hl hst _hw _hh
    rw [loadImage_eq_of_guards s index win img hv hl]
    simp [hst, computeGeometry]
  · simp only [computeGeometry, RenderGeometry.mk.injEq]
    norm_num [max_def]
  · simp only [computeGeometry, RenderGeometry.mk.injEq]
    norm_num [max_def]

/-- C3 witness: rendering frame 0 (a loaded 400×400 image) on a 1000×500
viewport paints it at offsets (0, −250) with drawn size 1000×1000. -/
theorem claim_C3_witness :
    (loadImage (sampleState (sampleImage .loaded 400 400)) 0 ⟨1000, 500⟩).canvas.content =
      some { url := generateImageUrl 1, offsetX := 0, offsetY := -250
             width := 1000, height := 1000 } := by
  have h := claim_C3_cover_geometry.1 (sampleState (sampleImage .loaded 400 400)) 0
    ⟨1000, 500⟩ (sampleImage .loaded 400 400)
    (by rfl) (by rfl) rfl (by norm_num [sampleImage]) (by norm_num [sampleImage])
  rw [h]
  norm_num [sampleImage, max_def]

/-- C4: for every prior state, `loadImage` at index −1 or at index
`maxIndex + 1` fails the range check and returns the state unchanged: the
surface, the cursor and every other field keep their prior values, and (the
embedding being a total function) no exception reaches the caller. -/
theorem claim_C4_out_of_range_noop (s : AnimState) (win : Viewport) :
    loadImage s (-1) win = s ∧
    loadImage s ((s.frames.maxIndex : ℚ) + 1) win = s := by
  constructor
  · apply loadImage_eq_of_invalid
    unfold isValidFrameIndex
    norm_num
  · apply loadImage_eq_of_invalid
    unfold isValidFrameIndex
    have : ¬((s.frames.maxIndex : ℚ) + 1 ≤ (s.frames.maxIndex : ℚ)) := by linarith
    simp [this]

/-- C7: every frame number in `[1, 1345]` generates the URL
`./images/frame_<n zero-padded to exactly 4 characters>.jpeg`; in
particular 7 gives `frame_0007.jpeg` and 1345 gives `frame_1345.jpeg`. -/
theorem claim_C7_url_padding (i : ℕ) (h1 : 1 ≤ i) (h2 : i ≤ 1345) :
    generateImageUrl i =
      "./images/frame_" ++ jsPadStart (Nat.repr i) FRAME_PADDING '0' ++ ".jpeg" ∧
    (jsPadStart (Nat.repr i) FRAME_PADDING '0').length = 4 ∧
    generateImageUrl 7 = "./images/frame_0007.jpeg" ∧
    generateImageUrl 1345 = "./images/frame_1345.jpeg" := by
  refine ⟨rfl, ?_, by rfl, by rfl⟩
  have : i < 10 ^ 4 := by omega
  exact jsPadStart_length i this

/-- C7 witness: instantiation at frame number 7. -/
theorem claim_C7_witness :
    generateImageUrl 7 =
      "./images/frame_" ++ jsPadStart (Nat.repr 7) FRAME_PADDING '0' ++ ".jpeg" ∧
    (jsPadStart (Nat.repr 7) FRAME_PADDING '0').length = 4 ∧
    generateImageUrl 7 = "./images/frame_0007.jpeg" ∧
    generateImageUrl 1345 = "./images/frame_1345.jpeg" :=
  claim_C7_url_padding 7 (by norm_num) (by norm_num)

/-- Cursor bounds are preserved by `loadImage`. -/
lemma loadImage_cursor_bounds (s : AnimState) (index : ℚ) (win : Viewport)
    (h0 : 0 ≤ s.frames.currentIndex)
    (h1 : s.frames.currentIndex ≤ (s.frames.maxIndex : ℚ)) :
    0 ≤ (loadImage s index win).frames.currentIndex ∧
    (loadImage s index win).frames.currentIndex ≤
      ((loadImage s index win).frames.maxIndex : ℚ) := by
  obtain ⟨hmax, hcur⟩ := loadImage_frames s index win
  rw [hmax]
  rcases hcur with h | ⟨hidx, hlo, hhi⟩
  · rw [h]
    exact ⟨h0, h1⟩
  · rw [hidx]
    exact ⟨hlo, hhi⟩

/-- C8: the cursor invariant `0 ≤ currentIndex ≤ maxIndex` holds in the
state built by the constructor (`currentIndex = 0`) and is preserved by
`loadImage` and by the public `loadFrame`, which assign the cursor only an
index that passed the range check. -/
theorem claim_C8_cursor_invariant :
    (initialFrames.currentIndex = 0 ∧ 0 ≤ initialFrames.currentIndex ∧
      initialFrames.currentIndex ≤ (initialFrames.maxIndex : ℚ)) ∧
    (∀ (s : AnimState) (index : ℚ) (win : Viewport),
      0 ≤ s.frames.currentIndex → s.frames.currentIndex ≤ (s.frames.maxIndex : ℚ) →
      0 ≤ (loadImage s index win).frames.currentIndex ∧
      (loadImage s index win).frames.currentIndex ≤
        ((loadImage s index win).frames.maxIndex : ℚ)) ∧
    (∀ (s : AnimState) (index : ℚ) (win : Viewport),
      0 ≤ s.frames.currentIndex → s.frames.currentIndex ≤ (s.frames.maxIndex : ℚ) →
      0 ≤ (loadFrame s index win).frames.currentIndex ∧
      (loadFrame s index win).frames.currentIndex ≤
        ((loadFrame s index win).frames.maxIndex : ℚ)) := by
  refine ⟨⟨rfl, le_refl _, by norm_num [initialFrames]⟩, ?_, ?_⟩
  · intro s index win h0 h1
    exact loadImage_cursor_bounds s index win h0 h1
  · intro s index win h0 h1
    unfold loadFrame
    split_ifs with hinit
    · exact loadImage_cursor_bounds s index win h0 h1
    · exact ⟨h0, h1⟩

/-- C8 witness: instantiation at a concrete mid-session state with the
cursor at 5 and a request for frame 3. -/
theorem claim_C8_witness :
    0 ≤ (loadImage (sampleState (sampleImage .loaded 400 300)) 3 ⟨1000, 500⟩).frames.currentIndex ∧
    (loadImage (sampleState (sampleImage .loaded 400 300)) 3 ⟨1000, 500⟩).frames.currentIndex ≤
      ((loadImage (sampleState (sampleImage .loaded 400 300)) 3 ⟨1000, 500⟩).frames.maxIndex : ℚ) :=
  claim_C8_cursor_invariant.2.1 (sampleState (sampleImage .loaded 400 300)) 3 ⟨1000, 500⟩
    (by norm_num [sampleState]) (by norm_num [sampleState, FRAME_MAX_INDEX])

/-- C9: `handleResize` before the all-resolved notification
(`isInitialized = false`) returns the state unchanged (no render, no error);
once the notification has fired (`isInitialized = true`) it re-renders the
floored current frame index, and any render that reaches the drawing step
first recomputes the canvas dimensions from the current viewport. -/
theorem claim_C9_handleResize :
    (∀ (s : AnimState) (win : Viewport), s.isInitialized = false →
      handleResize s win = s) ∧
    (∀ (s : AnimState) (win : Viewport), s.isInitialized = true →
      handleResize s win = loadImage s ((⌊s.frames.currentIndex⌋ : ℤ) : ℚ) win) ∧
    (∀ (s : AnimState) (index : ℚ) (win : Viewport) (img : FrameImage),
      isValidFrameIndex s index = true →
      jsIndexLookup s.images index = some img →
      (loadImage s index win).canvas.width = win.innerWidth ∧
      (loadImage s index win).canvas.height = win.innerHeight) := by
  refine ⟨?_, ?_, ?_⟩
  · intro s win h
    unfold handleResize
    simp [h]
  · intro s win h
    unfold handleResize
    simp [h]
  · intro s index win img hv hl
    rw [loadImage_eq_of_guards s index win img hv hl]
    exact ⟨rfl, rfl⟩

/-- C9 witness: on the freshly constructed (not yet resolved) state a
resize is a no-op; on a resolved state it renders the floored cursor; a
render recomputes the canvas dimensions from the viewport. -/
theorem claim_C9_witness :
    handleResize (initialState ⟨800, 600⟩) ⟨1024, 768⟩ = initialState ⟨800, 600⟩ ∧
    handleResize (sampleState (sampleImage .loaded 400 300)) ⟨1024, 768⟩ =
      loadImage (sampleState (sampleImage .loaded 400 300))
        ((⌊(sampleState (sampleImage .loaded 400 300)).frames.currentIndex⌋ : ℤ) : ℚ)
        ⟨1024, 768⟩ ∧
    (loadImage (sampleState (sampleImage .loaded 400 300)) 0 ⟨1024, 768⟩).canvas.width = 1024 ∧
    (loadImage (sampleState (sampleImage .loaded 400 300)) 0 ⟨1024, 768⟩).canvas.height = 768 := by
  refine ⟨claim_C9_handleResize.1 _ _ rfl, claim_C9_handleResize.2.1 _ _ rfl, ?_⟩
  exact claim_C9_handleResize.2.2 (sampleState (sampleImage .loaded 400 300)) 0 ⟨1024, 768⟩
    (sampleImage .loaded 400 300) (by rfl) (by rfl)

/-- C10: the geometry of a rendered frame depends only on the viewport
current at render time: after two intervening `resizeCanvas` calls with
arbitrary dimensions, rendering with viewport `v2` produces exactly the
state a direct render with `v2` produces, and the resulting canvas carries
the `v2`-determined cover geometry, with no dependence on `v1`. -/
theorem claim_C10_latest_geometry (s : AnimState) (v1 v2 : Viewport) (index : ℚ)
    (img : FrameImage)
    (hv : isValidFrameIndex s index = true)
    (hl : jsIndexLookup s.images index = some img) :
    loadImage (resizeCanvas (resizeCanvas s v1) v2) index v2 = loadImage s index v2 ∧
    (loadImage (resizeCanvas (resizeCanvas s v1) v2) index v2).canvas =
      { width := v2.innerWidth, height := v2.innerHeight
        content :=
          if img.status = .loaded then
            some ⟨img.url,
              (computeGeometry v2.innerWidth v2.innerHeight img.width img.height).offsetX,
              (computeGeometry v2.innerWidth v2.innerHeight img.width img.height).offsetY,
              (computeGeometry v2.innerWidth v2.innerHeight img.width img.height).newWidth,
              (computeGeometry v2.innerWidth v2.innerHeight img.width img.height).newHeight⟩
          else none } := by
  have hv' : isValidFrameIndex (resizeCanvas (resizeCanvas s v1) v2) index = true := hv
  have hl' : jsIndexLookup (resizeCanvas (resizeCanvas s v1) v2).images index = some img := hl
  rw [loadImage_eq_of_guards _ index v2 img hv' hl',
    loadImage_eq_of_guards s index v2 img hv hl]
  exact ⟨rfl, rfl⟩

/-- C10 witness: concrete instantiation with an intervening 100×100 resize
followed by a 1000×500 one. -/
theorem claim_C10_witness :
    loadImage (resizeCanvas (resizeCanvas (sampleState (sampleImage .loaded 400 400)) ⟨100, 100⟩)
        ⟨1000, 500⟩) 0 ⟨1000, 500⟩ =
      loadImage (sampleState (sampleImage .loaded 400 400)) 0 ⟨1000, 500⟩ ∧
    (loadImage (resizeCanvas (resizeCanvas (sampleState (sampleImage .loaded 400 400)) ⟨100, 100⟩)
        ⟨1000, 500⟩) 0 ⟨1000, 500⟩).canvas =
      { width := (1000 : ℚ), height := (500 : ℚ)
        content :=
          if (sampleImage .loaded 400 400).status = .loaded then
            some ⟨(sampleImage .loaded 400 400).url,
              (computeGeometry 1000 500 400 400).offsetX,
              (computeGeometry 1000 500 400 400).offsetY,
              (computeGeometry 1000 500 400 400).newWidth,
              (computeGeometry 1000 500 400 400).newHeight⟩
          else none } :=
  claim_C10_latest_geometry (sampleState (sampleImage .loaded 400 400)) ⟨100, 100⟩ ⟨1000, 500⟩ 0
    (sampleImage .loaded 400 400) (by rfl) (by rfl)

/-- C6: when the image array has exactly `maxIndex` entries (as
`preloadImages` leaves it), index `maxIndex` itself passes
`isValidFrameIndex`, yet `loadImage maxIndex` is a no-op because slot
`maxIndex` holds nothing; moreover any call that changes the state at all
used an integral index in `[0, maxIndex − 1]`. -/
theorem claim_C6_maxIndex_noop (s : AnimState) (win : Viewport)
    (hlen : s.images.length = s.frames.maxIndex) :
    isValidFrameIndex s (s.frames.maxIndex : ℚ) = true ∧
    loadImage s (s.frames.maxIndex : ℚ) win = s ∧
    (∀ index : ℚ, loadImage s index win ≠ s →
      ∃ k : ℕ, k < s.frames.maxIndex ∧ index = (k : ℚ)) := by
  refine ⟨?_, ?_, ?_⟩
  · unfold isValidFrameIndex
    simp
  · apply loadImage_eq_of_lookup_none
    rw [jsIndexLookup_natCast]
    apply List.get?_eq_none.mpr
    omega
  · intro index hne
    by_cases hv : isValidFrameIndex s index
    · cases hl : jsIndexLookup s.images index with
      | none => exact absurd (loadImage_eq_of_lookup_none s index win hl) hne
      | some img =>
        unfold jsIndexLookup at hl
        split_ifs at hl with hcond
        · obtain ⟨hlt, -⟩ := List.get?_eq_some.mp hl
          refine ⟨index.num.toNat, by omega, ?_⟩
          have h1 : ((index.num : ℚ)) = index := by
            have hq := Rat.num_div_den index
            rw [hcond.1] at hq
            simpa using hq
          have h2 : ((index.num.toNat : ℕ) : ℤ) = index.num := Int.toNat_of_nonneg hcond.2
          calc index = (index.num : ℚ) := h1.symm
            _ = ((index.num.toNat : ℕ) : ℚ) := by exact_mod_cast h2.symm
    · have hv' : isValidFrameIndex s index = false := by
        simpa using hv
      exact absurd (loadImage_eq_of_invalid s index win hv') hne

/-- C6 witness: instantiation at a concrete 1345-slot state; index 1345
passes the range check yet renders nothing and changes nothing. -/
theorem claim_C6_witness :
    isValidFrameIndex (sampleState (sampleImage .loaded 400 300))
      ((sampleState (sampleImage .loaded 400 300)).frames.maxIndex : ℚ) = true ∧
    loadImage (sampleState (sampleImage .loaded 400 300))
      ((sampleState (sampleImage .loaded 400 300)).frames.maxIndex : ℚ) ⟨1000, 500⟩ =
      sampleState (sampleImage .loaded 400 300) ∧
    (∀ index : ℚ,
      loadImage (sampleState (sampleImage .loaded 400 300)) index ⟨1000, 500⟩ ≠
        sampleState (sampleImage .loaded 400 300) →
      ∃ k : ℕ, k < (sampleState (sampleImage .loaded 400 300)).frames.maxIndex ∧
        index = (k : ℚ)) :=
  claim_C6_maxIndex_noop (sampleState (sampleImage .loaded 400 300)) ⟨1000, 500⟩
    (by simp only [sampleState, List.length_cons, List.length_replicate]; rfl)

/-- Slot `k` of the fully resolved image array. -/
lemma resolvedImages_get? (w h : ℚ) (k : ℕ) (hk : k < FRAME_MAX_INDEX) :
    (resolvedImages w h).get? k =
      some { url := generateImageUrl (k + 1), status := .loaded, width := w, height := h } := by
  simp [resolvedImages, preloadImages, List.get?_map, List.get?_range, hk]

/-- C5: slot `k` (0-based) of the preloaded array carries the URL of frame
number `k + 1` (`frame_<k+1 padded>.jpeg`); `generateImageUrl 1` is
`./images/frame_0001.jpeg`; rendering cursor index `k` on a fully resolved
array draws exactly the URL of frame number `k + 1` — so frame_1345.jpeg is
drawn exactly at cursor index 1344 — and the initial render fired by
`onAllImagesLoaded` (cursor 0) draws `./images/frame_0001.jpeg`. -/
theorem claim_C5_frame_index_offset :
    (∀ k, k < FRAME_MAX_INDEX →
      ((preloadImages FRAME_MAX_INDEX).get? k).map FrameImage.url =
        some (generateImageUrl (k + 1))) ∧
    generateImageUrl 1 = "./images/frame_0001.jpeg" ∧
    (∀ (s : AnimState) (win : Viewport) (w h : ℚ) (k : ℕ),
      s.images = resolvedImages w h → s.frames.maxIndex = FRAME_MAX_INDEX →
      k < FRAME_MAX_INDEX →
      ((loadImage s (k : ℚ) win).canvas.content).map DrawnImage.url =
        some (generateImageUrl (k + 1)) ∧
      (generateImageUrl (k + 1) = generateImageUrl 1345 ↔ k = 1344)) ∧
    (∀ (s : AnimState) (win : Viewport) (w h : ℚ),
      s.images = resolvedImages w h → s.frames.maxIndex = FRAME_MAX_INDEX →
      s.frames.currentIndex = 0 →
      ((onAllImagesLoaded s win).canvas.content).map DrawnImage.url =
        some "./images/frame_0001.jpeg") := by
  have hrender : ∀ (s : AnimState) (win : Viewport) (w h : ℚ) (k : ℕ),
      s.images = resolvedImages w h → s.frames.maxIndex = FRAME_MAX_INDEX →
      k < FRAME_MAX_INDEX →
      ((loadImage s (k : ℚ) win).canvas.content).map DrawnImage.url =
        some (generateImageUrl (k + 1)) := by
    intro s win w h k himg hmax hk
    have hv : isValidFrameIndex s (k : ℚ) = true := by
      unfold isValidFrameIndex
      rw [hmax]
      simp only [Bool.and_eq_true, decide_eq_true_eq]
      exact ⟨by positivity, by exact_mod_cast Nat.le_of_lt hk⟩
    have hl : jsIndexLookup s.images (k : ℚ) =
        some { url := generateImageUrl (k + 1), status := .loaded, width := w, height := h } := by
      rw [himg, jsIndexLookup_natCast, resolvedImages_get? w h k hk]
    rw [loadImage_eq_of_guards s (k : ℚ) win _ hv hl]
    simp
  refine ⟨?_, by rfl, ?_, ?_⟩
  · intro k hk
    simp [preloadImages, List.get?_map, List.get?_range, hk]
  · intro s win w h k himg hmax hk
    refine ⟨hrender s win w h k himg hmax hk, ?_, ?_⟩
    · exact fun heq => generateImageUrl_eq_last k (by
        simpa [FRAME_MAX_INDEX] using hk) heq
    · rintro rfl
      rfl
  · intro s win w h himg hmax hcur
    unfold onAllImagesLoaded
    rw [hcur]
    have hz := hrender { s with isInitialized := true } win w h 0 himg hmax
      (by norm_num [FRAME_MAX_INDEX])
    rw [Nat.cast_zero] at hz
    rw [hz]
    rfl

/-- C5 witness: on the fully resolved state, cursor index 1344 draws
`frame_1345.jpeg` and the initial render of `onAllImagesLoaded` draws
`frame_0001.jpeg`. -/
theorem claim_C5_witness :
    ((loadImage resolvedState ((1344 : ℕ) : ℚ) ⟨800, 600⟩).canvas.content).map DrawnImage.url =
      some (generateImageUrl (1344 + 1)) ∧
    (generateImageUrl (1344 + 1) = generateImageUrl 1345 ↔ (1344 : ℕ) = 1344) ∧
    ((onAllImagesLoaded resolvedState ⟨800, 600⟩).canvas.content).map DrawnImage.url =
      some "./images/frame_0001.jpeg" := by
  have himg : resolvedState.images = resolvedImages 400 300 := by
    simp only [resolvedState]
  have hmax : resolvedState.frames.maxIndex = FRAME_MAX_INDEX := by
    simp only [resolvedState]
  have hcur : resolvedState.frames.currentIndex = 0 := by
    simp only [resolvedState]
  have hk : (1344 : ℕ) < FRAME_MAX_INDEX := by norm_num [FRAME_MAX_INDEX]
  have h1 := claim_C5_frame_index_offset.2.2.1 resolvedState ⟨800, 600⟩ 400 300 1344
    himg hmax hk
  have h2 := claim_C5_frame_index_offset.2.2.2 resolvedState ⟨800, 600⟩ 400 300
    himg hmax hcur
  exact ⟨h1.1, h1.2, h2⟩

/-- A mid-session state in which slot 0 failed to load (the `Image` object
is still in the array, broken, with intrinsic dimensions 0), the cursor sits
at frame 5 and frame 6 is painted on the canvas. -/
def c1PriorState : AnimState := sampleState (sampleImage .failed 0 0)

/-- C1 counterexample: requesting frame 0, whose image failed to load, is
NOT a no-op — the code only checks that the array slot is occupied, not the
load outcome.  The cursor moves from 5 to 0 and the painted surface is
blanked (the canvas resize and `clearRect` still run; only `drawImage`
draws nothing). -/
theorem claim_C1_counterexample :
    ((c1PriorState.images.get? 0).map FrameImage.status = some LoadStatus.failed) ∧
    c1PriorState.frames.currentIndex = 5 ∧
    (loadImage c1PriorState 0 ⟨800, 600⟩).frames.currentIndex = 0 ∧
    c1PriorState.canvas.content = some ⟨generateImageUrl 6, 0, 0, 800, 600⟩ ∧
    (loadImage c1PriorState 0 ⟨800, 600⟩).canvas.content = none := by
  have h := loadImage_eq_of_guards c1PriorState 0 ⟨800, 600⟩ (sampleImage .failed 0 0)
    (by rfl) (by rfl)
  refine ⟨rfl, rfl, ?_, rfl, ?_⟩
  · rw [h]
  · rw [h]
    rfl

/-- C1 as amended: the "not available" no-op applies exactly to lookups
that yield `undefined` (out-of-range indices, fractional indices, and — in
range — only index `maxIndex`, whose slot is past the end of the array).  A
pending or failed slot still holds an `Image` object, so `loadImage` on it
is not a no-op: the canvas is resized/blanked and the cursor moves to the
requested index; only the pixel drawing is skipped. -/
theorem claim_C1_unavailable_guard :
    (∀ (s : AnimState) (index : ℚ) (win : Viewport) (img : FrameImage),
      isValidFrameIndex s index = true →
      jsIndexLookup s.images index = some img →
      img.status ≠ LoadStatus.loaded →
      (loadImage s index win).frames.currentIndex = index ∧
      (loadImage s index win).canvas =
        { width := win.innerWidth, height := win.innerHeight, content := none }) ∧
    (∀ (s : AnimState) (index : ℚ) (win : Viewport),
      jsIndexLookup s.images index = none → loadImage s index win = s) := by
  constructor
  · intro s index win img hv hl hst
    rw [loadImage_eq_of_guards s index win img hv hl]
    exact ⟨rfl, by simp [hst]⟩
  · intro s index win hl
    exact loadImage_eq_of_lookup_none s index win hl

/-- C1 witness: a pending slot renders as "blank canvas, cursor moved", and
a lookup that yields `undefined` (index 1345 on a 1345-slot array) leaves
the state untouched. -/
theorem claim_C1_witness :
    ((loadImage (sampleState (sampleImage .pending 0 0)) 0 ⟨1024, 768⟩).frames.currentIndex = 0 ∧
      (loadImage (sampleState (sampleImage .pending 0 0)) 0 ⟨1024, 768⟩).canvas =
        { width := 1024, height := 768, content := none }) ∧
    loadImage (sampleState (sampleImage .pending 0 0)) ((1345 : ℕ) : ℚ) ⟨1024, 768⟩ =
      sampleState (sampleImage .pending 0 0) := by
  constructor
  · exact claim_C1_unavailable_guard.1 (sampleState (sampleImage .pending 0 0)) 0 ⟨1024, 768⟩
      (sampleImage .pending 0 0) (by rfl) (by rfl) (by simp [sampleImage])
  · exact claim_C1_unavailable_guard.2 (sampleState (sampleImage .pending 0 0)) _ ⟨1024, 768⟩
      (by
        rw [jsIndexLookup_natCast]
        apply List.get?_eq_none.mpr
        simp only [sampleState, List.length_cons, List.length_replicate]
        norm_num)

end DozeStudio

